import Mathlib

/-!
Shallow embedding of the morning-routine timer
(`src/morning-routine-timer.tsx` and `src/steps.ts`).

JavaScript numbers are modelled as exact rationals; where a computation
can produce a non-finite IEEE value (NaN or an infinity) the result type
is `JSNum`, which carries those values explicitly.
-/

namespace MorningRoutine

/-- One JavaScript number as it appears in this program: a finite value
(modelled as an exact rational) or one of the non-finite IEEE values. -/
inductive JSNum where
  | num : ℚ → JSNum
  | nan : JSNum
  | inf : JSNum
  | negInf : JSNum
deriving DecidableEq

/-- The timer state held by the `useTimer` hook, fields in source order:
`timeLeft`, `isRunning`, `totalTime`, `totalOvertime`, `isOvertime`. -/
structure TimerState where
  timeLeft : ℚ
  isRunning : Bool
  totalTime : ℚ
  totalOvertime : ℚ
  isOvertime : Bool
deriving DecidableEq

/-- Initial state produced by `useTimer(initialTime, onTimerEnd)`:
`timeLeft = initialTime`, not running, both totals 0, not overtime. -/
def initTimer (initialTime : ℚ) : TimerState :=
  { timeLeft := initialTime, isRunning := false, totalTime := 0,
    totalOvertime := 0, isOvertime := false }

/-- One delivered interval tick: the body of the `setInterval` callback in
`useTimer`.  The interval is armed only while `isRunning` is true, so in
the paused state no tick is delivered (modelled as a no-op).  The boolean
component records whether `onTimerEnd()` was invoked during this tick,
which the source does exactly when the pre-decrement `timeLeft` equals 0
(the branch that also sets `isOvertime`); ticks whose pre-decrement
`timeLeft` is negative increment `totalOvertime` but leave `isOvertime`
unchanged. -/
def tick (s : TimerState) : TimerState × Bool :=
  if s.isRunning then
    if 0 < s.timeLeft then
      ({ s with timeLeft := s.timeLeft - 1, totalTime := s.totalTime + 1 }, false)
    else if s.timeLeft = 0 then
      ({ s with timeLeft := s.timeLeft - 1, totalTime := s.totalTime + 1,
                totalOvertime := s.totalOvertime + 1, isOvertime := true }, true)
    else
      ({ s with timeLeft := s.timeLeft - 1, totalTime := s.totalTime + 1,
                totalOvertime := s.totalOvertime + 1 }, false)
  else (s, false)

/-- Operation `startTimer` of `useTimer`. -/
def startTimer (s : TimerState) : TimerState := { s with isRunning := true }

/-- Operation `pauseTimer` of `useTimer`. -/
def pauseTimer (s : TimerState) : TimerState := { s with isRunning := false }

/-- Operation `resetTimer(newTime)` of `useTimer`: sets `timeLeft := newTime`,
clears `isOvertime`, forces `isRunning := true`; touches nothing else. -/
def resetTimer (newTime : ℚ) (s : TimerState) : TimerState :=
  { s with timeLeft := newTime, isOvertime := false, isRunning := true }

/-- State component of a tick. -/
def tickState (s : TimerState) : TimerState := (tick s).1

/-- Timer state after `n` delivered ticks. -/
def timerStateAfter (n : ℕ) (s : TimerState) : TimerState := tickState^[n] s

/-- Run `n` ticks and count how many of them invoked `onTimerEnd()`. -/
def runTicks : ℕ → TimerState → TimerState × ℕ
  | 0, s => (s, 0)
  | n + 1, s =>
      let p := tick s
      let r := runTicks n p.1
      (r.1, (cond p.2 1 0) + r.2)

/-- Whether the tick numbered `k` (0-based) of a run from `s` invokes
`onTimerEnd()`. -/
def firedAtTick (k : ℕ) (s : TimerState) : Bool :=
  (tick (timerStateAfter k s)).2

/-- Per-tick behaviour of the `setInterval` body, as amended to match the
source: `timeLeft` drops by exactly 1 and `totalTime` rises by exactly 1;
`totalOvertime` rises by exactly 1 when the pre-decrement `timeLeft` is
at most 0 and is unchanged otherwise; `isOvertime` is set at the tick
whose pre-decrement `timeLeft` is exactly 0 and left unchanged at every
other tick; `onTimerEnd()` runs exactly at the tick whose pre-decrement
`timeLeft` is exactly 0. -/
def tickSpec (s : TimerState) : Prop :=
  (tick s).1.timeLeft = s.timeLeft - 1 ∧
  (tick s).1.totalTime = s.totalTime + 1 ∧
  (s.timeLeft ≤ 0 → (tick s).1.totalOvertime = s.totalOvertime + 1) ∧
  (0 < s.timeLeft → (tick s).1.totalOvertime = s.totalOvertime) ∧
  (s.timeLeft = 0 → (tick s).1.isOvertime = true) ∧
  (s.timeLeft ≠ 0 → (tick s).1.isOvertime = s.isOvertime) ∧
  ((tick s).2 = true ↔ s.timeLeft = 0)

/-- One routine step: a name, a planned duration in minutes and an
optional link, as in the `Step` interface of `steps.ts`. -/
structure Step where
  name : String
  duration : ℚ
  url : Option String
deriving DecidableEq

/-- Total planned time in seconds of a step list: the
`reduce((sum, step) => sum + step.duration * 60, 0)` pattern used by
`calculateProgress` in `useSteps`. -/
def sumDur (l : List Step) : ℚ := (l.map (fun st => st.duration * 60)).sum

/-- Function `calculateProgress(stepIndex)` of `useSteps`:
`Math.min((completedDuration / totalDuration) * 100, 100)` where
`completedDuration` sums `slice(0, stepIndex)` and `totalDuration` sums
the whole list.  The case split on `totalDuration = 0` spells out the
IEEE evaluation of that expression: `0/0` is NaN and `Math.min(NaN, 100)`
is NaN; `c/0` for positive `c` is positive infinity, which `Math.min`
clamps to 100; `c/0` for negative `c` is negative infinity, which
survives the `Math.min`. -/
def calculateProgress (steps : List Step) (stepIndex : ℕ) : JSNum :=
  let totalDuration := sumDur steps
  let completedDuration := sumDur (steps.take stepIndex)
  if totalDuration = 0 then
    if completedDuration = 0 then JSNum.nan
    else if 0 < completedDuration then JSNum.num 100
    else JSNum.negInf
  else JSNum.num (min (completedDuration / totalDuration * 100) 100)

/-- The step-sequence state held by the `useSteps` hook: the step list,
the 0-based cursor `currentStep`, the terminal flag `isRoutineFinished`
and the stored `progress` percentage. -/
structure StepsState where
  steps : List Step
  currentStep : ℕ
  isRoutineFinished : Bool
  progress : JSNum
deriving DecidableEq

/-- Function `goToNextStep` of `useSteps`.  If `currentStep` is below the
last index it moves the cursor up by one, stores the progress recomputed
at the new index, and returns the planned duration in seconds of the new
current step; otherwise it sets `isRoutineFinished`, stores progress 100
and returns `null` (modelled `none`).  The lookup of the new step uses an
optional index; under the branch guard the index is always in range, so
the `none` fallback of the `Option.map` is unreachable. -/
def goToNextStep (s : StepsState) : StepsState × Option ℚ :=
  if s.currentStep < s.steps.length - 1 then
    ({ s with currentStep := s.currentStep + 1,
              progress := calculateProgress s.steps (s.currentStep + 1) },
     (s.steps[s.currentStep + 1]?).map (fun st => st.duration * 60))
  else
    ({ s with isRoutineFinished := true, progress := JSNum.num 100 }, none)

/-- Function `getCurrentStepDuration` of `useSteps`:
`steps[currentStep].duration * 60`.  A `none` result models the TypeError
the source throws when `currentStep` is out of range (reading `duration`
of `undefined`), which is the only failure mode of this query. -/
def getCurrentStepDuration (s : StepsState) : Option ℚ :=
  (s.steps[s.currentStep]?).map (fun st => st.duration * 60)

/-- Combined session state: the `useTimer` state next to the `useSteps`
state, as both hooks live inside the `MorningRoutineTimer` component. -/
structure AppState where
  timer : TimerState
  seq : StepsState
deriving DecidableEq

/-- Function `updateSteps(newSteps)` of `useSteps` in `steps.ts`, seen at
the session level: it calls `setSteps(newSteps)`, `setCurrentStep(0)`,
`setIsRoutineFinished(false)` and `setProgress(0)`, and performs no call
into `useTimer`, so the whole timer component passes through unchanged. -/
def updateSteps (app : AppState) (newSteps : List Step) : AppState :=
  { app with
    seq := { steps := newSteps, currentStep := 0,
             isRoutineFinished := false, progress := JSNum.num 0 } }

/-- The three editable fields of a step in the routine editor. -/
inductive StepField where
  | name
  | duration
  | url
deriving DecidableEq

/-- Numeric value of a leading run of decimal digits; `none` when the
first character is not a digit. -/
def digitsVal (cs : List Char) : Option Nat :=
  let ds := cs.takeWhile Char.isDigit
  if ds.isEmpty then none
  else some (ds.foldl (fun a c => 10 * a + (c.toNat - 48)) 0)

/-- JavaScript `parseInt(value)` on the decimal strings produced by the
duration input field: leading spaces are skipped, an optional sign is
read, then the longest digit run; when no digit follows, the result is
NaN (modelled `none`).  Exotic forms (radix arguments, hexadecimal
literals) never reach this call site. -/
def parseIntJS (s : String) : Option Int :=
  match s.toList.dropWhile (fun c => c = ' ') with
  | '-' :: rest => (digitsVal rest).map (fun n => -(n : Int))
  | '+' :: rest => (digitsVal rest).map (fun n => (n : Int))
  | cs => (digitsVal cs).map (fun n => (n : Int))

/-- The per-field assignment inside `handleStepChange` of the
`RoutineEditor` in `steps.ts`.  For the duration field the source stores
`parseInt(value) || 0`: NaN and 0 are falsy and give 0; every other
parsed integer — negative ones included — is stored as parsed. -/
def applyStepField (st : Step) : StepField → String → Step
  | .name, value => { st with name := value }
  | .duration, value =>
      { st with duration :=
          match parseIntJS value with
          | none => 0
          | some n => if n = 0 then 0 else (n : ℚ) }
  | .url, value => { st with url := some value }

/-- Function `handleStepChange(index, field, value)` of the
`RoutineEditor`: copies the list and overwrites one field of the step at
`index`.  The editor only calls it with indices of rendered rows, so the
out-of-range fallback is unreachable. -/
def handleStepChange (steps : List Step) (index : ℕ)
    (f : StepField) (value : String) : List Step :=
  match steps[index]? with
  | some st => steps.set index (applyStepField st f value)
  | none => steps

/-- JavaScript `padStart(2, "0")` on the decimal representation of a
natural number. -/
def pad2 (n : ℕ) : String :=
  let t := toString n
  if t.length ≥ 2 then t else "0" ++ t

/-- Function `formatTime(seconds)` of the timer UI: `Math.abs`, then
`Math.floor(abs / 60)` minutes and `abs % 60` seconds, both padded to two
digits, with a leading minus sign exactly when the input is negative.
The call sites only pass integer second counts, so the argument is an
integer. -/
def formatTime (seconds : ℤ) : String :=
  let absSeconds := seconds.natAbs
  let mins := absSeconds / 60
  let secs := absSeconds % 60
  let sign := if seconds < 0 then "-" else ""
  sign ++ pad2 mins ++ ":" ++ pad2 secs

/-- JavaScript `Math.round` on a finite value: round half toward
positive infinity. -/
def jsRound (q : ℚ) : ℤ := ⌊q + 1 / 2⌋

/-- The progress formula as the specification words it: planned time of
the steps strictly before the index over total planned time, times 100,
clamped to 100. -/
def specProgressFormula (steps : List Step) (i : ℕ) : ℚ :=
  min (sumDur (steps.take i) / sumDur steps * 100) 100

/-- Scenario A step list: three steps of one planned minute each. -/
def steps3 : List Step :=
  [⟨"one", 1, none⟩, ⟨"two", 1, none⟩, ⟨"three", 1, none⟩]

/-- Scenario A starting sequence state: cursor 0, not finished,
progress 0. -/
def seq3 : StepsState := ⟨steps3, 0, false, JSNum.num 0⟩

/-- A finished one-step sequence: cursor at the last (only) index. -/
def seqFin : StepsState := ⟨[⟨"only", 1, none⟩], 0, true, JSNum.num 100⟩

/-- The empty sequence state. -/
def seqEmpty : StepsState := ⟨[], 0, false, JSNum.num 0⟩

/-- A running timer state one second before the countdown reaches 0. -/
def timerAtOne : TimerState := ⟨1, true, 0, 0, false⟩

/-- A running timer state exactly at 0, on fresh totals. -/
def timerAtZero : TimerState := ⟨0, true, 3, 4, false⟩

/-- A running timer state already negative with `isOvertime` still
false, as produced by `resetTimer` with a negative duration (reachable
through the editor, which stores negative durations as parsed). -/
def timerNegFresh : TimerState := ⟨-1, true, 0, 0, false⟩

/-- A running timer state with five seconds left, on fresh totals. -/
def timerAtFive : TimerState := ⟨5, true, 0, 0, false⟩

/-- Scenario B run: reset to 5 seconds from a fresh timer, then seven
delivered ticks. -/
def scenarioB : TimerState × ℕ := runTicks 7 (resetTimer 5 (initTimer 6))

/-- Step list of two steps whose durations cancel to a zero sum,
reachable through the editor (negative durations are stored as parsed). -/
def stepsPM : List Step := [⟨"plus", 5, none⟩, ⟨"minus", -5, none⟩]

/-- All-zero two-step list, as produced by coercing invalid duration
input to 0 on both steps. -/
def stepsZZ : List Step := [⟨"a", 0, none⟩, ⟨"b", 0, none⟩]

theorem tick_run_aux (s : TimerState) (h : s.isRunning = true) :
    (tickState s).isRunning = true ∧ (tickState s).timeLeft = s.timeLeft - 1 := by
  unfold tickState tick
  rw [h, if_pos rfl]
  by_cases h1 : 0 < s.timeLeft
  · rw [if_pos h1]
    exact ⟨rfl, rfl⟩
  · by_cases h2 : s.timeLeft = 0
    · rw [if_neg h1, if_pos h2]
      exact ⟨rfl, rfl⟩
    · rw [if_neg h1, if_neg h2]
      exact ⟨rfl, rfl⟩

theorem timerStateAfter_spec (n : ℕ) (s : TimerState) (h : s.isRunning = true) :
    (timerStateAfter n s).isRunning = true ∧
    (timerStateAfter n s).timeLeft = s.timeLeft - n := by
  induction n generalizing s with
  | zero =>
      refine ⟨h, ?_⟩
      simp [timerStateAfter]
  | succ n ih =>
      have h1 := tick_run_aux s h
      have h2 := ih (tickState s) h1.1
      have hstep : timerStateAfter (n + 1) s = timerStateAfter n (tickState s) := by
        simp [timerStateAfter, Function.iterate_succ_apply]
      refine ⟨by rw [hstep]; exact h2.1, ?_⟩
      rw [hstep, h2.2, h1.2]
      push_cast
      ring

theorem tick_fired_iff (s : TimerState) (h : s.isRunning = true) :
    (tick s).2 = true ↔ s.timeLeft = 0 := by
  unfold tick
  rw [h, if_pos rfl]
  by_cases h1 : 0 < s.timeLeft
  · rw [if_pos h1]
    constructor
    · intro hc; cases hc
    · intro hc; rw [hc] at h1; exact absurd h1 (lt_irrefl 0)
  · by_cases h2 : s.timeLeft = 0
    · rw [if_neg h1, if_pos h2]
      exact ⟨fun _ => h2, fun _ => rfl⟩
    · rw [if_neg h1, if_neg h2]
      exact ⟨fun hc => Bool.noConfusion hc, fun hc => absurd hc h2⟩

theorem tick_meets_tickSpec (s : TimerState) (h : s.isRunning = true) : tickSpec s := by
  unfold tickSpec tick
  rw [h, if_pos rfl]
  by_cases h1 : 0 < s.timeLeft
  · rw [if_pos h1]
    refine ⟨rfl, rfl, ?_, fun _ => rfl, ?_, fun _ => rfl, ?_⟩
    · intro hc; exact absurd h1 (not_lt.2 hc)
    · intro hc; rw [hc] at h1; exact absurd h1 (lt_irrefl 0)
    · constructor
      · intro hc; cases hc
      · intro hc; rw [hc] at h1; exact absurd h1 (lt_irrefl 0)
  · by_cases h2 : s.timeLeft = 0
    · rw [if_neg h1, if_pos h2]
      exact ⟨rfl, rfl, fun _ => rfl, fun hc => absurd hc h1, fun _ => rfl,
        fun hc => absurd h2 hc, ⟨fun _ => h2, fun _ => rfl⟩⟩
    · rw [if_neg h1, if_neg h2]
      refine ⟨rfl, rfl, fun _ => rfl, ?_, fun hc => absurd hc h2, fun _ => rfl, ?_⟩
      · intro hc; exact absurd hc h1
      · exact ⟨fun hc => Bool.noConfusion hc, fun hc => absurd hc h2⟩

/-- Claim C1, counterexample: a running state with `timeLeft = -1` and
`isOvertime = false` (reachable by `resetTimer` with a negative duration)
takes an overtime tick — pre-decrement `timeLeft ≤ 0` — yet the tick
leaves `isOvertime = false`, against the claim that every such tick sets
`isOvertime = true`. -/
theorem claim1_counterexample :
    timerNegFresh.isRunning = true ∧ timerNegFresh.timeLeft ≤ 0 ∧
    (tick timerNegFresh).1.isOvertime = false := by
  refine ⟨rfl, by norm_num [timerNegFresh], ?_⟩
  norm_num [tick, timerNegFresh]

/-- Claim C1 (amended): every tick delivered while running decrements
`timeLeft` by exactly 1 and increments `totalTime` by exactly 1; a tick
with pre-decrement `timeLeft ≤ 0` increments `totalOvertime` by 1, and
sets `isOvertime = true` exactly when the pre-decrement value is 0,
leaving it unchanged otherwise; `onTimerEnd()` is invoked exactly at the
tick whose pre-decrement `timeLeft` is 0.  In a run from `resetTimer d`,
`timeLeft` after `n` ticks is `d - n` and the callback fires at most once.
Scenario: from `resetTimer 5` on a fresh timer, 7 ticks give
`timeLeft = -2`, `isOvertime = true`, `totalOvertime = 2`,
`totalTime = 7`, and the callback fired exactly once, at the sixth tick
(0-based tick number 5). -/
theorem claim1_theorem :
    (∀ s : TimerState, s.isRunning = true → tickSpec s) ∧
    (∀ (s : TimerState) (d : ℚ) (n : ℕ),
      (timerStateAfter n (resetTimer d s)).timeLeft = d - n) ∧
    (∀ (s : TimerState) (d : ℚ) (k j : ℕ),
      firedAtTick k (resetTimer d s) = true →
      firedAtTick j (resetTimer d s) = true → k = j) ∧
    (scenarioB.1.timeLeft = -2 ∧ scenarioB.1.isOvertime = true ∧
      scenarioB.1.totalOvertime = 2 ∧ scenarioB.1.totalTime = 7 ∧
      scenarioB.2 = 1 ∧
      ∀ k, k < 7 → (firedAtTick k (resetTimer 5 (initTimer 6)) = true ↔ k = 5)) := by
  refine ⟨fun s h => tick_meets_tickSpec s h, ?_, ?_, ?_⟩
  · intro s d n
    have h := timerStateAfter_spec n (resetTimer d s) rfl
    rw [h.2]
    rfl
  · intro s d k j hk hj
    have hkspec := timerStateAfter_spec k (resetTimer d s) rfl
    have hjspec := timerStateAfter_spec j (resetTimer d s) rfl
    have hk0 : (timerStateAfter k (resetTimer d s)).timeLeft = 0 :=
      (tick_fired_iff _ hkspec.1).1 hk
    have hj0 : (timerStateAfter j (resetTimer d s)).timeLeft = 0 :=
      (tick_fired_iff _ hjspec.1).1 hj
    rw [hkspec.2] at hk0
    rw [hjspec.2] at hj0
    have hd : (resetTimer d s).timeLeft = d := rfl
    rw [hd] at hk0 hj0
    have : (k : ℚ) = (j : ℚ) := by linarith
    exact_mod_cast this
  · have hrun : scenarioB = (TimerState.mk (-2) true 7 2 true, 1) := by
      norm_num [scenarioB, runTicks, tick, resetTimer, initTimer,
        Prod.ext_iff, TimerState.mk.injEq]
    refine ⟨by rw [hrun], by rw [hrun], by rw [hrun], by rw [hrun],
      by rw [hrun], ?_⟩
    intro k hk
    interval_cases k <;>
      norm_num [firedAtTick, timerStateAfter, tickState, tick, resetTimer,
        initTimer, Function.iterate_succ_apply]

/-- Claim C1, witness: the per-tick behaviour instantiated at a running
state with 5 seconds left. -/
theorem claim1_witness : tickSpec timerAtFive :=
  claim1_theorem.1 timerAtFive rfl

/-- Claim C2, counterexample: from a running state with `timeLeft = 1`,
the tick leaves post-decrement `timeLeft = 0 ≤ 0`, yet `totalOvertime`
does not change, against the claim that it increments by 1 exactly when
the post-decrement value is at most 0. -/
theorem claim2_counterexample :
    (tick timerAtOne).1.timeLeft ≤ 0 ∧
    (tick timerAtOne).1.totalOvertime = timerAtOne.totalOvertime ∧
    (tick timerAtOne).1.totalOvertime ≠ timerAtOne.totalOvertime + 1 := by
  norm_num [tick, timerAtOne]

/-- Claim C2 (amended): on every running tick, `totalOvertime` increases
by exactly 1 exactly when the post-decrement `timeLeft` is at most -1 —
equivalently, when the pre-decrement value is at most 0 — and is
unchanged otherwise; and `resetTimer` never changes `totalOvertime`, so
the total accumulates across the whole session. -/
theorem claim2_theorem :
    (∀ s : TimerState, s.isRunning = true →
      (((tick s).1.totalOvertime = s.totalOvertime + 1) ↔ s.timeLeft ≤ 0) ∧
      (((tick s).1.totalOvertime = s.totalOvertime + 1) ↔
        (tick s).1.timeLeft ≤ -1) ∧
      (0 < s.timeLeft → (tick s).1.totalOvertime = s.totalOvertime)) ∧
    (∀ (s : TimerState) (d : ℚ), (resetTimer d s).totalOvertime = s.totalOvertime) := by
  refine ⟨?_, fun s d => rfl⟩
  intro s h
  obtain ⟨h1, _, h3, h4, _, _, _⟩ := tick_meets_tickSpec s h
  have hself : ¬ (s.totalOvertime = s.totalOvertime + 1) := by
    intro hh; linarith
  have hA : ((tick s).1.totalOvertime = s.totalOvertime + 1) ↔ s.timeLeft ≤ 0 := by
    constructor
    · intro hov
      by_contra hc
      rw [h4 (lt_of_not_le hc)] at hov
      exact hself hov
    · exact h3
  have hB : s.timeLeft ≤ 0 ↔ (tick s).1.timeLeft ≤ -1 := by
    rw [h1]
    constructor <;> intro <;> linarith
  exact ⟨hA, hA.trans hB, h4⟩

/-- Claim C2, witness: the amended per-tick overtime accounting
instantiated at a running state with `timeLeft = 0`. -/
theorem claim2_witness :
    (((tick timerAtZero).1.totalOvertime = timerAtZero.totalOvertime + 1) ↔
      timerAtZero.timeLeft ≤ 0) ∧
    (((tick timerAtZero).1.totalOvertime = timerAtZero.totalOvertime + 1) ↔
      (tick timerAtZero).1.timeLeft ≤ -1) ∧
    (0 < timerAtZero.timeLeft →
      (tick timerAtZero).1.totalOvertime = timerAtZero.totalOvertime) :=
  claim2_theorem.1 timerAtZero rfl

/-- Claim C8: for every prior timer state and every value `d`,
`resetTimer d` leaves `timeLeft = d`, `isOvertime = false` and
`isRunning = true`, and changes no other field — in particular
`totalTime` and `totalOvertime` are preserved. -/
theorem claim8_theorem : ∀ (s : TimerState) (d : ℚ),
    resetTimer d s = TimerState.mk d true s.totalTime s.totalOvertime false ∧
    (resetTimer d s).timeLeft = d ∧
    (resetTimer d s).isOvertime = false ∧
    (resetTimer d s).isRunning = true ∧
    (resetTimer d s).totalTime = s.totalTime ∧
    (resetTimer d s).totalOvertime = s.totalOvertime :=
  fun _ _ => ⟨rfl, rfl, rfl, rfl, rfl, rfl⟩

/-- Claim C7: replacing the whole step list swaps the list, resets the
cursor to 0, clears the finished flag and stores progress 0, while every
field of the timer — in particular `totalTime` and `totalOvertime` —
passes through unchanged. -/
theorem claim7_theorem : ∀ (app : AppState) (newSteps : List Step),
    (updateSteps app newSteps).timer = app.timer ∧
    (updateSteps app newSteps).timer.totalTime = app.timer.totalTime ∧
    (updateSteps app newSteps).timer.totalOvertime = app.timer.totalOvertime ∧
    (updateSteps app newSteps).seq.steps = newSteps ∧
    (updateSteps app newSteps).seq.currentStep = 0 ∧
    (updateSteps app newSteps).seq.isRoutineFinished = false ∧
    (updateSteps app newSteps).seq.progress = JSNum.num 0 :=
  fun _ _ => ⟨rfl, rfl, rfl, rfl, rfl, rfl, rfl⟩

theorem sumDur_eq_zero (l : List Step) (h : ∀ st ∈ l, st.duration = 0) :
    sumDur l = 0 := by
  unfold sumDur
  apply List.sum_eq_zero
  intro x hx
  obtain ⟨st, hst, rfl⟩ := List.mem_map.1 hx
  rw [h st hst, zero_mul]

/-- Claim C3, counterexample: with three steps of planned duration 1, 1,
1 minute, two advance calls leave the cursor at 2 and stored progress
200/3, and `Math.round(200/3)` is 67, not the claimed 66. -/
theorem claim3_counterexample :
    (goToNextStep (goToNextStep seq3).1).1.currentStep = 2 ∧
    (goToNextStep (goToNextStep seq3).1).1.progress = JSNum.num (200 / 3) ∧
    jsRound (200 / 3) = 67 ∧ jsRound (200 / 3) ≠ 66 := by
  have h1 : (goToNextStep seq3).1 = StepsState.mk steps3 1 false (JSNum.num (100 / 3)) := by
    norm_num [goToNextStep, seq3, steps3, calculateProgress, sumDur,
      StepsState.mk.injEq, min_def]
  have h2 : (goToNextStep (StepsState.mk steps3 1 false (JSNum.num (100 / 3)))).1
      = StepsState.mk steps3 2 false (JSNum.num (200 / 3)) := by
    norm_num [goToNextStep, steps3, calculateProgress, sumDur,
      StepsState.mk.injEq, min_def]
  have h3 : jsRound (200 / 3) = 67 := by
    unfold jsRound
    rw [Int.floor_eq_iff]
    norm_num
  rw [h1, h2]
  exact ⟨rfl, rfl, h3, by rw [h3]; decide⟩

/-- Claim C3 (amended): with three steps of planned duration 1, 1, 1
minute starting at cursor 0, two advance calls leave the cursor at 2 and
the progress percentage rounds to 67 (not 66); a third advance sets the
finished flag, stores progress 100 and returns `none`. -/
theorem claim3_theorem :
    (goToNextStep (goToNextStep seq3).1).1.currentStep = 2 ∧
    (goToNextStep (goToNextStep seq3).1).1.progress = JSNum.num (200 / 3) ∧
    jsRound (200 / 3) = 67 ∧
    (goToNextStep (goToNextStep (goToNextStep seq3).1).1).1.isRoutineFinished = true ∧
    (goToNextStep (goToNextStep (goToNextStep seq3).1).1).1.progress = JSNum.num 100 ∧
    (goToNextStep (goToNextStep (goToNextStep seq3).1).1).2 = none := by
  have h1 : (goToNextStep seq3).1 = StepsState.mk steps3 1 false (JSNum.num (100 / 3)) := by
    norm_num [goToNextStep, seq3, steps3, calculateProgress, sumDur,
      StepsState.mk.injEq, min_def]
  have h2 : (goToNextStep (StepsState.mk steps3 1 false (JSNum.num (100 / 3)))).1
      = StepsState.mk steps3 2 false (JSNum.num (200 / 3)) := by
    norm_num [goToNextStep, steps3, calculateProgress, sumDur,
      StepsState.mk.injEq, min_def]
  have h3 : goToNextStep (StepsState.mk steps3 2 false (JSNum.num (200 / 3)))
      = (StepsState.mk steps3 2 true (JSNum.num 100), none) := by
    norm_num [goToNextStep, steps3, Prod.ext_iff, StepsState.mk.injEq]
  have h4 : jsRound (200 / 3) = 67 := by
    unfold jsRound
    rw [Int.floor_eq_iff]
    norm_num
  rw [h1, h2, h3]
  exact ⟨rfl, rfl, h4, rfl, rfl, rfl⟩

/-- Claim C4: on a non-empty sequence, advance below the last index moves
the cursor up by one, recomputes the stored progress by the planned-time
formula clamped to 100 (stated for a non-degenerate total; the degenerate
total is the subject of C10), and returns the new current step, duration
times 60; advance at the last index sets the finished flag, stores
progress 100, returns `none` and leaves the cursor; once finished — which
puts the cursor at the last index — advance never moves the cursor and
never yields a duration. -/
theorem claim4_theorem : ∀ s : StepsState, s.steps ≠ [] →
    (s.currentStep < s.steps.length - 1 →
      (goToNextStep s).1.currentStep = s.currentStep + 1 ∧
      (sumDur s.steps ≠ 0 →
        (goToNextStep s).1.progress =
          JSNum.num (specProgressFormula s.steps (s.currentStep + 1))) ∧
      (∃ st, s.steps[s.currentStep + 1]? = some st ∧
        (goToNextStep s).2 = some (st.duration * 60))) ∧
    (s.currentStep = s.steps.length - 1 →
      (goToNextStep s).1.isRoutineFinished = true ∧
      (goToNextStep s).1.progress = JSNum.num 100 ∧
      (goToNextStep s).2 = none ∧
      (goToNextStep s).1.currentStep = s.currentStep) ∧
    (s.isRoutineFinished = true → s.currentStep = s.steps.length - 1 →
      (goToNextStep s).1.currentStep = s.currentStep ∧
      (goToNextStep s).2 = none) := by
  intro s hne
  refine ⟨?_, ?_, ?_⟩
  · intro hlt
    unfold goToNextStep
    rw [if_pos hlt]
    have hlen : s.currentStep + 1 < s.steps.length := by
      have : 0 < s.steps.length := List.length_pos.2 hne
      omega
    refine ⟨rfl, ?_, ?_⟩
    · intro hden
      show calculateProgress s.steps (s.currentStep + 1) = _
      simp only [calculateProgress]
      rw [if_neg hden]
      rfl
    · refine ⟨s.steps.get ⟨s.currentStep + 1, hlen⟩, ?_, ?_⟩
      · rw [List.getElem?_eq_getElem hlen]
        rfl
      · show (s.steps[s.currentStep + 1]?).map _ = _
        rw [List.getElem?_eq_getElem hlen]
        rfl
  · intro hlast
    unfold goToNextStep
    have hnlt : ¬ (s.currentStep < s.steps.length - 1) := by omega
    rw [if_neg hnlt]
    exact ⟨rfl, rfl, rfl, rfl⟩
  · intro _ hlast
    unfold goToNextStep
    have hnlt : ¬ (s.currentStep < s.steps.length - 1) := by omega
    rw [if_neg hnlt]
    exact ⟨rfl, rfl⟩

/-- Claim C4, witness: the below-last-index behaviour instantiated at the
three-step sequence with the cursor at 0. -/
theorem claim4_witness :
    (goToNextStep seq3).1.currentStep = seq3.currentStep + 1 ∧
    (goToNextStep seq3).1.progress =
      JSNum.num (specProgressFormula seq3.steps (seq3.currentStep + 1)) ∧
    (∃ st, seq3.steps[seq3.currentStep + 1]? = some st ∧
      (goToNextStep seq3).2 = some (st.duration * 60)) := by
  have h := (claim4_theorem seq3 (by simp [seq3, steps3])).1
    (by norm_num [seq3, steps3])
  exact ⟨h.1, h.2.1 (by norm_num [seq3, steps3, sumDur]), h.2.2⟩

/-- Claim C5, counterexample: on a finished non-empty sequence the
current-step query does not fail — it returns the last step, planned
duration in seconds — against the claim that it fails whenever the
sequence is finished or empty. -/
theorem claim5_counterexample :
    seqFin.isRoutineFinished = true ∧
    getCurrentStepDuration seqFin = some 60 ∧
    getCurrentStepDuration seqFin ≠ none := by
  refine ⟨rfl, ?_, ?_⟩ <;> norm_num [getCurrentStepDuration, seqFin]
  exact fun hc => Option.noConfusion hc

/-- Claim C5 (amended): the current-step query fails (`none`, the
modelled index error) exactly when the cursor is out of range — in
particular it always fails on the empty sequence; every in-range cursor
yields that step, planned duration times 60; and on a finished non-empty
sequence, whose cursor sits at the last index, the query therefore
succeeds instead of failing. -/
theorem claim5_theorem : ∀ s : StepsState,
    (getCurrentStepDuration s = none ↔ s.steps.length ≤ s.currentStep) ∧
    (s.steps = [] → getCurrentStepDuration s = none) ∧
    (s.currentStep < s.steps.length →
      ∃ st, s.steps[s.currentStep]? = some st ∧
        getCurrentStepDuration s = some (st.duration * 60)) ∧
    (s.steps ≠ [] → s.currentStep = s.steps.length - 1 →
      (getCurrentStepDuration s).isSome = true ∧
      ∃ st, s.steps[s.currentStep]? = some st ∧
        getCurrentStepDuration s = some (st.duration * 60)) := by
  intro s
  have hiff : getCurrentStepDuration s = none ↔ s.steps.length ≤ s.currentStep := by
    unfold getCurrentStepDuration
    rw [Option.map_eq_none', List.getElem?_eq_none_iff]
  have hin : s.currentStep < s.steps.length →
      ∃ st, s.steps[s.currentStep]? = some st ∧
        getCurrentStepDuration s = some (st.duration * 60) := by
    intro hlen
    unfold getCurrentStepDuration
    rw [List.getElem?_eq_getElem hlen]
    exact ⟨s.steps[s.currentStep], rfl, rfl⟩
  refine ⟨hiff, ?_, hin, ?_⟩
  · intro he
    exact hiff.2 (by rw [he]; exact Nat.zero_le _)
  · intro hne hlast
    have hlen : s.currentStep < s.steps.length := by
      have : 0 < s.steps.length := List.length_pos.2 hne
      omega
    obtain ⟨st, hst, hdur⟩ := hin hlen
    exact ⟨by rw [hdur]; rfl, ⟨st, hst, hdur⟩⟩

/-- Claim C5, witness: the query on the empty sequence fails. -/
theorem claim5_witness : getCurrentStepDuration seqEmpty = none :=
  (claim5_theorem seqEmpty).2.1 rfl

/-- Claim C6, counterexample: the duration input "-5" is stored as the
negative duration -5, not coerced to 0, against the claim that every
non-positive duration input is stored as 0. -/
theorem claim6_counterexample :
    handleStepChange [Step.mk "x" 5 none] 0 StepField.duration "-5"
      = [Step.mk "x" (-5) none] ∧ (-5 : ℚ) < 0 ∧ (-5 : ℚ) ≠ 0 := by
  have hp : parseIntJS "-5" = some (-5) := rfl
  refine ⟨?_, by norm_num, by norm_num⟩
  norm_num [handleStepChange, applyStepField, hp, Step.mk.injEq]

/-- Claim C6 (amended): the edit boundary coerces non-numeric duration
input (`parseInt` gives NaN) to 0, and input parsing to 0 stays 0; but
every other parsed integer — negative values included — is stored as
parsed, so negative duration inputs are NOT coerced to 0. -/
theorem claim6_theorem : ∀ (l : List Step) (st : Step) (i : ℕ) (v : String),
    l[i]? = some st →
    (parseIntJS v = none →
      handleStepChange l i StepField.duration v
        = l.set i { st with duration := 0 }) ∧
    (∀ n : ℤ, parseIntJS v = some n →
      handleStepChange l i StepField.duration v
        = l.set i { st with duration := (n : ℚ) }) := by
  intro l st i v hget
  constructor
  · intro hp
    simp [handleStepChange, hget, applyStepField, hp]
  · intro n hp
    by_cases hn : n = 0
    · subst hn
      simp [handleStepChange, hget, applyStepField, hp]
    · simp [handleStepChange, hget, applyStepField, hp, hn]

/-- Claim C6, witness: the amended storing rule instantiated at the
input "-5" on a one-step list. -/
theorem claim6_witness :
    handleStepChange [Step.mk "a" 1 none] 0 StepField.duration "-5"
      = List.set [Step.mk "a" 1 none] 0 (Step.mk "a" ((-5 : ℤ) : ℚ) none) :=
  (claim6_theorem [Step.mk "a" 1 none] (Step.mk "a" 1 none) 0 "-5" rfl).2 (-5) rfl

/-- Claim C9: the time formatter emits a minus sign exactly on negative
input, then the absolute minutes and seconds, each two-digit padded,
separated by a colon; in particular -65 formats as "-01:05", 0 as
"00:00" and 125 as "02:05". -/
theorem claim9_theorem :
    formatTime (-65) = "-01:05" ∧ formatTime 0 = "00:00" ∧
    formatTime 125 = "02:05" ∧
    ∀ s : ℤ, formatTime s =
      (if s < 0 then "-" else "") ++ pad2 (s.natAbs / 60) ++ ":" ++
        pad2 (s.natAbs % 60) :=
  ⟨rfl, rfl, rfl, fun _ => rfl⟩

/-- Claim C10, counterexample: the step list with durations 5 and -5 —
reachable through the edit boundary, which stores negative inputs as
parsed — has planned durations summing to 0, yet advance from cursor 0
stores progress 100, a number inside the bound, because the division
yields positive infinity, which the clamp turns into 100; and on the
all-zero one-step list the (final) advance stores 100 as well. -/
theorem claim10_counterexample :
    (stepsPM.map Step.duration).sum = 0 ∧ sumDur stepsPM = 0 ∧
    (goToNextStep (StepsState.mk stepsPM 0 false (JSNum.num 0))).1.progress
      = JSNum.num 100 ∧
    ((0 : ℚ) ≤ 100 ∧ (100 : ℚ) ≤ 100) ∧
    ([Step.mk "z" 0 none].map Step.duration).sum = 0 ∧
    (goToNextStep (StepsState.mk [Step.mk "z" 0 none] 0 false (JSNum.num 0))).1.progress
      = JSNum.num 100 := by
  refine ⟨by norm_num [stepsPM], by norm_num [stepsPM, sumDur], ?_,
    by norm_num, by norm_num, ?_⟩
  · norm_num [goToNextStep, stepsPM, calculateProgress, sumDur]
  · norm_num [goToNextStep, calculateProgress, sumDur]

/-- Claim C10 (amended): on every step list all of whose durations are 0
(the lists an input-coercing edit boundary produces with zero total),
advance below the last index divides 0 by 0 and stores progress NaN,
which is not a finite number at all, so the documented bound 0 to 100
fails; lists of zero total with a nonzero prefix sum instead yield an
infinity, clamped to 100 or kept as negative infinity, and the final
advance stores the constant 100. -/
theorem claim10_theorem : ∀ (l : List Step) (i : ℕ) (f : Bool) (p : JSNum),
    (∀ st ∈ l, st.duration = 0) → i < l.length - 1 →
    (goToNextStep (StepsState.mk l i f p)).1.progress = JSNum.nan ∧
    ∀ q : ℚ, (goToNextStep (StepsState.mk l i f p)).1.progress ≠ JSNum.num q := by
  intro l i f p hz hlt
  have hmain : (goToNextStep (StepsState.mk l i f p)).1.progress = JSNum.nan := by
    unfold goToNextStep
    rw [if_pos hlt]
    show calculateProgress l (i + 1) = JSNum.nan
    have ht : sumDur l = 0 := sumDur_eq_zero l hz
    have hc : sumDur (l.take (i + 1)) = 0 :=
      sumDur_eq_zero _ (fun st hst => hz st (List.mem_of_mem_take hst))
    simp only [calculateProgress]
    rw [if_pos ht, if_pos hc]
  exact ⟨hmain, fun q => by rw [hmain]; exact fun hc => JSNum.noConfusion hc⟩

/-- Claim C10, witness: the NaN outcome instantiated on the all-zero
two-step list. -/
theorem claim10_witness :
    (goToNextStep (StepsState.mk stepsZZ 0 false (JSNum.num 0))).1.progress
      = JSNum.nan :=
  (claim10_theorem stepsZZ 0 false (JSNum.num 0)
    (by intro st hst; fin_cases hst <;> rfl) (by norm_num [stepsZZ])).1

end MorningRoutine
